import Mathlib

/-!
Shallow embedding of `src/app/app.py` (a small Flask web service with a
PostgreSQL reachability probe).

The external world (the psycopg2 driver talking to the database server) is
modelled as an oracle `DbWorld` giving, for each of the five calls the probe
makes (`psycopg2.connect`, `conn.cursor`, `cur.execute`, `cur.close`,
`conn.close`), whether that call returns normally (`ok`), raises a Python
exception (`err`), or never returns (`hang`).  A call made with a timeout
bound turns a `hang` into a raised timeout exception; a call made with no
timeout propagates the `hang`, which makes the whole probe diverge
(modelled as `Option.none`).

Each function of the Python module becomes a Lean function; the trace of
driver calls the probe performs is recorded as a list of `DbEvent`s so that
statements about "one connection attempt", "one query", "the connection is
closed" are statements about the embedded code, not ambient facts.
-/

namespace DemoApp

/-- Outcome of one call into the database driver, as chosen by the oracle. -/
inductive StepOutcome
  | ok
  | err
  | hang
deriving DecidableEq, Repr

/-- The five driver calls the probe body makes, in source order. -/
inductive DbStep
  | connectStep
  | cursorStep
  | executeStep
  | closeCurStep
  | closeConnStep
deriving DecidableEq, Repr

/-- A Python exception escaping one of the driver calls; it remembers which
call raised. -/
inductive PyErr
  | raised (step : DbStep)
deriving DecidableEq, Repr

/-- Oracle: the outcome of each driver call in one probe invocation. -/
structure DbWorld where
  connect : StepOutcome
  cursor : StepOutcome
  execute : StepOutcome
  closeCur : StepOutcome
  closeConn : StepOutcome
deriving DecidableEq, Repr

/-- Driver calls actually issued, with the arguments the source passes.
`connectEv` records the connection parameters and the `connect_timeout`
keyword (`some 2` in the source); `executeEv` records the SQL text and the
(absent, hence `none`) timeout of the query phase. -/
inductive DbEvent
  | connectEv (host : String) (port : Int) (dbname user password : String)
      (connectTimeout : Option Nat)
  | openCursorEv
  | executeEv (sql : String) (timeout : Option Nat)
  | closeCursorEv
  | closeConnEv
deriving DecidableEq, Repr

/-- Applying a timeout bound to a driver call: with a finite timeout a call
that would hang instead raises (the driver's timeout exception); with no
timeout the raw outcome stands. -/
def applyTimeout : Option Nat → StepOutcome → StepOutcome
  | some _, StepOutcome.hang => StepOutcome.err
  | _, o => o

/-- Connection parameters, as bound by the module-level configuration. -/
structure Config where
  host : String
  port : Int
  dbname : String
  user : String
  password : String
deriving DecidableEq, Repr

/-- Result of running the `try:` block of `check_db`: the tried return value
(`Except.ok true`) or the exception it raised, whether `psycopg2.connect`
had succeeded (so a connection object was opened), and the trace of driver
calls issued. -/
structure BodyRun where
  outcome : Except PyErr Bool
  connOpened : Bool
  trace : List DbEvent
deriving Repr

/-- The `try:` block of `check_db` (src/app/app.py lines 15-21):
`conn = psycopg2.connect(host=.., port=.., dbname=.., user=.., password=..,
connect_timeout=2)`; `cur = conn.cursor()`; `cur.execute("SELECT 1")`;
`cur.close()`; `conn.close()`; `return True`.  Each call consults the
oracle; the first call that raises aborts the block with that exception,
and a call that hangs (possible only where no timeout bounds it) makes the
block diverge (`none`). -/
def tryBody (cfg : Config) (w : DbWorld) : Option BodyRun :=
  let evC : DbEvent :=
    DbEvent.connectEv cfg.host cfg.port cfg.dbname cfg.user cfg.password (some 2)
  match applyTimeout (some 2) w.connect with
  | StepOutcome.hang => none
  | StepOutcome.err =>
      some ⟨Except.error (PyErr.raised DbStep.connectStep), false, [evC]⟩
  | StepOutcome.ok =>
  match applyTimeout none w.cursor with
  | StepOutcome.hang => none
  | StepOutcome.err =>
      some ⟨Except.error (PyErr.raised DbStep.cursorStep), true,
        [evC, DbEvent.openCursorEv]⟩
  | StepOutcome.ok =>
  match applyTimeout none w.execute with
  | StepOutcome.hang => none
  | StepOutcome.err =>
      some ⟨Except.error (PyErr.raised DbStep.executeStep), true,
        [evC, DbEvent.openCursorEv, DbEvent.executeEv "SELECT 1" none]⟩
  | StepOutcome.ok =>
  match applyTimeout none w.closeCur with
  | StepOutcome.hang => none
  | StepOutcome.err =>
      some ⟨Except.error (PyErr.raised DbStep.closeCurStep), true,
        [evC, DbEvent.openCursorEv, DbEvent.executeEv "SELECT 1" none,
          DbEvent.closeCursorEv]⟩
  | StepOutcome.ok =>
  match applyTimeout none w.closeConn with
  | StepOutcome.hang => none
  | StepOutcome.err =>
      some ⟨Except.error (PyErr.raised DbStep.closeConnStep), true,
        [evC, DbEvent.openCursorEv, DbEvent.executeEv "SELECT 1" none,
          DbEvent.closeCursorEv, DbEvent.closeConnEv]⟩
  | StepOutcome.ok =>
      some ⟨Except.ok true, true,
        [evC, DbEvent.openCursorEv, DbEvent.executeEv "SELECT 1" none,
          DbEvent.closeCursorEv, DbEvent.closeConnEv]⟩

/-- Outcome of one full `check_db` invocation: the boolean it returns,
whether the connection had been opened, and the driver-call trace. -/
structure ProbeResult where
  result : Bool
  connOpened : Bool
  trace : List DbEvent
deriving DecidableEq, Repr

/-- Function `check_db` (src/app/app.py lines 14-24): runs the `try:` block; the
`except Exception:` handler turns any raised exception into `return False`
(after a debug log, which has no observable effect modelled here).  `none`
means the invocation never returns. -/
def check_db (cfg : Config) (w : DbWorld) : Option ProbeResult :=
  match tryBody cfg w with
  | none => none
  | some run =>
    match run.outcome with
    | Except.ok b => some ⟨b, run.connOpened, run.trace⟩
    | Except.error _ => some ⟨false, run.connOpened, run.trace⟩

/-- An HTTP response: status code and a flat JSON object body, kept as an
ordered list of string key/value pairs (both handlers only ever build flat
string-valued objects via `jsonify`). -/
structure HttpResponse where
  status : Nat
  body : List (String × String)
deriving DecidableEq, Repr

/-- The `index` handler for `GET /` (src/app/app.py lines 27-29):
`jsonify({"message": "DevOps Platform Demo App", "db": ("reachable" if
check_db() else "unreachable")})`.  `jsonify` responds with status 200.
The handler returns the response paired with the driver-call trace its
probe produced; `none` if the probe never returns. -/
def index (cfg : Config) (w : DbWorld) : Option (HttpResponse × List DbEvent) :=
  match check_db cfg w with
  | none => none
  | some r =>
      some (⟨200,
        [("message", "DevOps Platform Demo App"),
          ("db", if r.result then "reachable" else "unreachable")]⟩, r.trace)

/-- The `health` handler for `GET /health` (src/app/app.py lines 32-34):
`jsonify({"status": "ok"})`. -/
def health : HttpResponse :=
  ⟨200, [("status", "ok")]⟩

/-- The two routes the app defines. -/
inductive Request
  | root
  | healthCheck
deriving DecidableEq, Repr

/-- Dispatch of one request to its handler.  The handlers take no request
data and share no mutable state; a request's `DbWorld` is the state of the
external database while that request is handled.  The `/health` handler
performs no driver call, hence its empty trace. -/
def handle (cfg : Config) (w : DbWorld) : Request → Option (HttpResponse × List DbEvent)
  | Request.root => index cfg w
  | Request.healthCheck => some (health, [])

/-- A served request sequence: each inbound request is handled against the
database state current at its own handling time; the Python module keeps no
state between requests, so serving is pointwise. -/
def serve (cfg : Config) (reqs : List (Request × DbWorld)) :
    List (Option (HttpResponse × List DbEvent)) :=
  reqs.map (fun p => handle cfg p.2 p.1)

/-! ### Configuration loading (src/app/app.py lines 7-11) -/

/-- Python whitespace stripped by `int()` before parsing (ASCII range). -/
def isPyWs (c : Char) : Bool :=
  c = ' ' || c = '\t' || c = '\n' || c = '\r' || c = '\x0b' || c = '\x0c'

/-- Digit run of a Python decimal integer literal, continued after at least
one digit has been read: further digits, with single underscores allowed
only between two digits.  `none` models `int()` raising `ValueError`. -/
def parseDigits (acc : Nat) : List Char → Option Nat
  | [] => some acc
  | '_' :: c :: rest =>
      if c.isDigit then parseDigits (acc * 10 + (c.toNat - 48)) rest else none
  | c :: rest =>
      if c.isDigit then parseDigits (acc * 10 + (c.toNat - 48)) rest else none

/-- Digit run of a Python decimal integer literal: at least one digit, and
it must start with a digit (a leading underscore is rejected). -/
def startDigits : List Char → Option Nat
  | [] => none
  | c :: rest =>
      if c.isDigit then parseDigits (c.toNat - 48) rest else none

/-- Signed part of a Python decimal integer literal: optional single sign,
then a digit run. -/
def pyIntCore : List Char → Option Int
  | '+' :: rest => (startDigits rest).map Int.ofNat
  | '-' :: rest => (startDigits rest).map (fun n => -(Int.ofNat n))
  | cs => (startDigits cs).map Int.ofNat

/-- Python's `int(s)` on a string: strip surrounding whitespace, then parse
an optionally signed decimal literal; `none` models the `ValueError` it
raises on anything else. -/
def pyInt (s : String) : Option Int :=
  pyIntCore (((s.data.dropWhile isPyWs).reverse.dropWhile isPyWs).reverse)

/-- Binding `DB_HOST = os.environ.get("DB_HOST", "host.docker.internal")`. -/
def DB_HOST (env : String → Option String) : String :=
  (env "DB_HOST").getD "host.docker.internal"

/-- Binding `DB_PORT = int(os.environ.get("DB_PORT", 5432))`: when the variable is
absent the default is already the integer `5432` (no parsing happens); when
present, the string is parsed by `int()`, whose failure (`none`) is an
uncaught `ValueError` at module import. -/
def DB_PORT (env : String → Option String) : Option Int :=
  match env "DB_PORT" with
  | some s => pyInt s
  | none => some 5432

/-- Binding `DB_NAME = os.environ.get("DB_NAME", "dev_db")`. -/
def DB_NAME (env : String → Option String) : String :=
  (env "DB_NAME").getD "dev_db"

/-- Binding `DB_USER = os.environ.get("DB_USER", "dev")`. -/
def DB_USER (env : String → Option String) : String :=
  (env "DB_USER").getD "dev"

/-- Binding `DB_PASS = os.environ.get("DB_PASS", "devpass")`. -/
def DB_PASS (env : String → Option String) : String :=
  (env "DB_PASS").getD "devpass"

/-- Module import: evaluates the five configuration bindings in order.
`none` models the module failing to import (an uncaught `ValueError` from
the `DB_PORT` line), in which case no endpoint is ever served — `handle`
needs the resulting `Config`. -/
def loadConfig (env : String → Option String) : Option Config :=
  match DB_PORT env with
  | none => none
  | some p => some ⟨DB_HOST env, p, DB_NAME env, DB_USER env, DB_PASS env⟩

/-! ### Sample values used by witnesses -/

/-- The all-defaults configuration. -/
def cfg0 : Config := ⟨"host.docker.internal", 5432, "dev_db", "dev", "devpass"⟩

/-- A probe invocation in which every driver call succeeds. -/
def wAllOk : DbWorld :=
  ⟨StepOutcome.ok, StepOutcome.ok, StepOutcome.ok, StepOutcome.ok, StepOutcome.ok⟩

/-- A probe invocation in which the connection opens but the query raises. -/
def wExecErr : DbWorld :=
  ⟨StepOutcome.ok, StepOutcome.ok, StepOutcome.err, StepOutcome.ok, StepOutcome.ok⟩

/-- Recognizer for connection-attempt events. -/
def isConnect : DbEvent → Bool
  | DbEvent.connectEv _ _ _ _ _ _ => true
  | _ => false

/-- The value of a field of a flat JSON object (first binding wins, as in a
Python dict literal with distinct keys). -/
def fieldVal (body : List (String × String)) (k : String) : Option String :=
  (body.find? (fun p => p.1 = k)).map Prod.snd

/-- All five driver calls of one probe succeed. -/
def allOk (w : DbWorld) : Prop :=
  w.connect = StepOutcome.ok ∧ w.cursor = StepOutcome.ok ∧
    w.execute = StepOutcome.ok ∧ w.closeCur = StepOutcome.ok ∧
    w.closeConn = StepOutcome.ok

/-- The exception the `try:` block of `check_db` raised, if any. -/
def raisedErr (cfg : Config) (w : DbWorld) : Option PyErr :=
  match tryBody cfg w with
  | some ⟨Except.error e, _, _⟩ => some e
  | _ => none

/-- A probe invocation in which the connection opens but the query hangs. -/
def wExecHang : DbWorld :=
  ⟨StepOutcome.ok, StepOutcome.ok, StepOutcome.hang, StepOutcome.ok, StepOutcome.ok⟩

/-- The probe outcome on `cfg0` when every driver call succeeds. -/
def rOk : ProbeResult :=
  ⟨true, true,
    [DbEvent.connectEv "host.docker.internal" 5432 "dev_db" "dev" "devpass" (some 2),
      DbEvent.openCursorEv, DbEvent.executeEv "SELECT 1" none,
      DbEvent.closeCursorEv, DbEvent.closeConnEv]⟩

/-- The probe outcome on `cfg0` when the query raises. -/
def rExecErr : ProbeResult :=
  ⟨false, true,
    [DbEvent.connectEv "host.docker.internal" 5432 "dev_db" "dev" "devpass" (some 2),
      DbEvent.openCursorEv, DbEvent.executeEv "SELECT 1" none]⟩

/-- The root response when the probe reports reachable. -/
def respOk : HttpResponse :=
  ⟨200, [("message", "DevOps Platform Demo App"), ("db", "reachable")]⟩

/-! ### Helper lemmas -/

/-- Shape of every terminating probe trace: exactly one connection attempt,
it comes first and carries the configured parameters with timeout 2, and
the successful probe's trace is exactly
connect, open cursor, one query, close cursor, close connection. -/
lemma check_db_trace_facts (cfg : Config) (w : DbWorld) (r : ProbeResult)
    (h : check_db cfg w = some r) :
    r.trace.countP isConnect = 1 ∧
    r.trace.head? = some (DbEvent.connectEv cfg.host cfg.port cfg.dbname
      cfg.user cfg.password (some 2)) ∧
    (r.result = true →
      r.trace = [DbEvent.connectEv cfg.host cfg.port cfg.dbname cfg.user
          cfg.password (some 2), DbEvent.openCursorEv,
        DbEvent.executeEv "SELECT 1" none, DbEvent.closeCursorEv,
        DbEvent.closeConnEv]) := by
  obtain ⟨c1, c2, c3, c4, c5⟩ := w
  revert h
  cases c1 <;> cases c2 <;> cases c3 <;> cases c4 <;> cases c5 <;>
    simp only [check_db, tryBody, applyTimeout, Option.some.injEq] <;>
    first
      | (rintro rfl; exact ⟨rfl, rfl, by simp⟩)
      | (intro h; exact Option.noConfusion h)

/-! ### Claim theorems -/

/-- C1: every terminating request to `/` gets status 200 (even when the
probe fails), the body's message field is the fixed string, the db field is
present and is one of the two literals "reachable"/"unreachable", and it is
"reachable" exactly when the probe returned true. -/
theorem index_always_200_with_db_field (cfg : Config) (w : DbWorld)
    (r : ProbeResult) (resp : HttpResponse) (tr : List DbEvent)
    (hc : check_db cfg w = some r) (hi : index cfg w = some (resp, tr)) :
    resp.status = 200 ∧
    fieldVal resp.body "message" = some "DevOps Platform Demo App" ∧
    (fieldVal resp.body "db" = some "reachable" ∨
      fieldVal resp.body "db" = some "unreachable") ∧
    (fieldVal resp.body "db" = some "reachable" ↔ r.result = true) := by
  obtain ⟨b, co, trc⟩ := r
  simp only [index, hc, Option.some.injEq, Prod.mk.injEq] at hi
  obtain ⟨h1, h2⟩ := hi
  subst h1
  cases b <;> simp [fieldVal, List.find?]

/-- C1 witness: the all-success probe on the default configuration. -/
theorem index_always_200_with_db_field_witness :
    check_db cfg0 wAllOk = some rOk ∧
    index cfg0 wAllOk = some (respOk, rOk.trace) ∧
    (respOk.status = 200 ∧
      fieldVal respOk.body "message" = some "DevOps Platform Demo App" ∧
      (fieldVal respOk.body "db" = some "reachable" ∨
        fieldVal respOk.body "db" = some "unreachable") ∧
      (fieldVal respOk.body "db" = some "reachable" ↔ rOk.result = true)) :=
  ⟨rfl, rfl,
    index_always_200_with_db_field cfg0 wAllOk rOk respOk rOk.trace rfl rfl⟩

/-- C2: a terminating `check_db` returns true exactly when all five driver
calls succeed; it returns false exactly when the body raised an exception
(of any step), i.e. every raised error is normalized to the boolean false
rather than propagated. -/
theorem check_db_true_iff_all_steps_ok (cfg : Config) (w : DbWorld)
    (r : ProbeResult) (h : check_db cfg w = some r) :
    (r.result = true ↔ allOk w) ∧
    (r.result = false ↔ raisedErr cfg w ≠ none) := by
  obtain ⟨c1, c2, c3, c4, c5⟩ := w
  revert h
  cases c1 <;> cases c2 <;> cases c3 <;> cases c4 <;> cases c5 <;>
    simp only [check_db, tryBody, applyTimeout, Option.some.injEq] <;>
    first
      | (rintro rfl; simp [allOk, raisedErr, tryBody, applyTimeout])
      | (intro h; exact Option.noConfusion h)

/-- C2 witness: the query-raises probe on the default configuration. -/
theorem check_db_true_iff_all_steps_ok_witness :
    check_db cfg0 wExecErr = some rExecErr ∧
    ((rExecErr.result = true ↔ allOk wExecErr) ∧
      (rExecErr.result = false ↔ raisedErr cfg0 wExecErr ≠ none)) :=
  ⟨rfl, check_db_true_iff_all_steps_ok cfg0 wExecErr rExecErr rfl⟩

/-- C3 (violated by the code): when the connection opens and the query then
raises, `check_db` returns False through the `except` handler without ever
calling `conn.close()` — the opened connection is not closed on this exit
path, contradicting the resource-release claim. -/
theorem check_db_leaks_connection_on_query_error :
    check_db cfg0 wExecErr = some rExecErr ∧
    rExecErr.connOpened = true ∧
    DbEvent.closeConnEv ∉ rExecErr.trace ∧
    rExecErr.result = false := by
  refine ⟨rfl, rfl, ?_, rfl⟩
  decide

/-- C4: `/health` always answers 200 with exactly the body
status: ok, touching neither the prober nor any external system (its
driver-call trace is empty). -/
theorem health_always_ok (cfg : Config) (w : DbWorld) :
    handle cfg w Request.healthCheck =
      some (⟨200, [("status", "ok")]⟩, []) := by
  rfl

/-- C5: every terminating probe makes exactly one connection attempt, that
attempt passes connect timeout 2 together with the configured parameters,
and a successful probe issues exactly one query `SELECT 1`, after the
connect and before the two closes. -/
theorem probe_one_attempt_one_query (cfg : Config) (w : DbWorld)
    (r : ProbeResult) (h : check_db cfg w = some r) :
    r.trace.countP isConnect = 1 ∧
    r.trace.head? = some (DbEvent.connectEv cfg.host cfg.port cfg.dbname
      cfg.user cfg.password (some 2)) ∧
    (r.result = true →
      r.trace = [DbEvent.connectEv cfg.host cfg.port cfg.dbname cfg.user
          cfg.password (some 2), DbEvent.openCursorEv,
        DbEvent.executeEv "SELECT 1" none, DbEvent.closeCursorEv,
        DbEvent.closeConnEv]) :=
  check_db_trace_facts cfg w r h

/-- C5 witness: the all-success probe on the default configuration. -/
theorem probe_one_attempt_one_query_witness :
    check_db cfg0 wAllOk = some rOk ∧ rOk.trace.countP isConnect = 1 :=
  ⟨rfl, (probe_one_attempt_one_query cfg0 wAllOk rOk rfl).1⟩

/-- C6: serving is pointwise — the response at position i of a served
request sequence depends only on the request and database state at position
i (no caching or cross-request state) — and each terminating `/` response
embeds a probe performed during that very request: its trace is the probe's
trace, it contains exactly one fresh connection attempt, and the db field
is computed from that probe's boolean. -/
theorem root_fresh_probe_per_request (cfg : Config) :
    (∀ reqs1 reqs2 : List (Request × DbWorld), ∀ i : Nat,
      reqs1[i]? = reqs2[i]? → (serve cfg reqs1)[i]? = (serve cfg reqs2)[i]?) ∧
    (∀ w r, check_db cfg w = some r →
      index cfg w = some (⟨200,
        [("message", "DevOps Platform Demo App"),
          ("db", if r.result then "reachable" else "unreachable")]⟩,
        r.trace) ∧
      r.trace.countP isConnect = 1) := by
  constructor
  · intro reqs1 reqs2 i h
    simp [serve, List.getElem?_map, h]
  · intro w r h
    exact ⟨by simp [index, h], (check_db_trace_facts cfg w r h).1⟩

/-- C6 witness: the all-success probe on the default configuration. -/
theorem root_fresh_probe_per_request_witness :
    check_db cfg0 wAllOk = some rOk ∧
    index cfg0 wAllOk = some (⟨200,
      [("message", "DevOps Platform Demo App"),
        ("db", if rOk.result then "reachable" else "unreachable")]⟩,
      rOk.trace) :=
  ⟨rfl, ((root_fresh_probe_per_request cfg0).2 wAllOk rOk rfl).1⟩

set_option maxHeartbeats 1600000 in
/-- C7: only the connect call carries a timeout bound (always exactly 2);
the query call carries none, so a probe whose connect succeeds but whose
query hangs never returns, while a hanging connect is bounded by the
timeout and yields an ordinary false result. -/
theorem only_connect_has_timeout (cfg : Config) (w : DbWorld) :
    (∀ r, check_db cfg w = some r →
      (∀ h p d u pw t, DbEvent.connectEv h p d u pw t ∈ r.trace →
        t = some 2) ∧
      (∀ q t, DbEvent.executeEv q t ∈ r.trace → t = none)) ∧
    (w.connect = StepOutcome.ok → w.cursor = StepOutcome.ok →
      w.execute = StepOutcome.hang → check_db cfg w = none) ∧
    (w.connect = StepOutcome.hang →
      check_db cfg w = some ⟨false, false,
        [DbEvent.connectEv cfg.host cfg.port cfg.dbname cfg.user
          cfg.password (some 2)]⟩) := by
  obtain ⟨c1, c2, c3, c4, c5⟩ := w
  refine ⟨fun r h => ?_, fun h1 h2 h3 => ?_, fun h1 => ?_⟩
  · revert h
    cases c1 <;> cases c2 <;> cases c3 <;> cases c4 <;> cases c5 <;>
      simp only [check_db, tryBody, applyTimeout, Option.some.injEq] <;>
      first
        | (rintro rfl; simp)
        | (intro h; exact Option.noConfusion h)
  · subst h1; subst h2; subst h3; rfl
  · subst h1; rfl

/-- C7 witness: on the default configuration, a probe whose query hangs
never returns. -/
theorem only_connect_has_timeout_witness :
    wExecHang.connect = StepOutcome.ok ∧ wExecHang.cursor = StepOutcome.ok ∧
    wExecHang.execute = StepOutcome.hang ∧ check_db cfg0 wExecHang = none :=
  ⟨rfl, rfl, rfl,
    (only_connect_has_timeout cfg0 wExecHang).2.1 rfl rfl rfl⟩

/-- C8: with all five environment variables absent, the five configuration
bindings take exactly the documented defaults; and whenever the module
imports successfully, every probe's connection attempt draws host, port,
database name, user and password from those bindings. -/
theorem config_env_defaults (env : String → Option String)
    (hH : env "DB_HOST" = none) (hP : env "DB_PORT" = none)
    (hN : env "DB_NAME" = none) (hU : env "DB_USER" = none)
    (hS : env "DB_PASS" = none) :
    (DB_HOST env = "host.docker.internal" ∧ DB_PORT env = some 5432 ∧
      DB_NAME env = "dev_db" ∧ DB_USER env = "dev" ∧
      DB_PASS env = "devpass" ∧ loadConfig env = some cfg0) ∧
    (∀ env' : String → Option String, ∀ cfg : Config, ∀ w r,
      loadConfig env' = some cfg → check_db cfg w = some r →
      cfg.host = DB_HOST env' ∧ DB_PORT env' = some cfg.port ∧
      cfg.dbname = DB_NAME env' ∧ cfg.user = DB_USER env' ∧
      cfg.password = DB_PASS env' ∧
      r.trace.head? = some (DbEvent.connectEv cfg.host cfg.port cfg.dbname
        cfg.user cfg.password (some 2))) := by
  constructor
  · simp [DB_HOST, DB_PORT, DB_NAME, DB_USER, DB_PASS, loadConfig, cfg0,
      hH, hP, hN, hU, hS]
  · intro env' cfg w r hcfg hr
    have hhead := (check_db_trace_facts cfg w r hr).2.1
    cases hp : DB_PORT env' with
    | none => simp [loadConfig, hp] at hcfg
    | some p =>
      simp only [loadConfig, hp, Option.some.injEq] at hcfg
      subst hcfg
      exact ⟨rfl, rfl, rfl, rfl, rfl, hhead⟩

/-- C8 witness: the empty environment yields the default configuration. -/
theorem config_env_defaults_witness :
    DB_HOST (fun _ => none) = "host.docker.internal" ∧
    loadConfig (fun _ => none) = some cfg0 :=
  ⟨(config_env_defaults (fun _ => none) rfl rfl rfl rfl rfl).1.1,
    (config_env_defaults (fun _ => none) rfl rfl rfl rfl rfl).1.2.2.2.2.2⟩

/-- C9: the module fails at startup (uncaught ValueError from the DB_PORT
line, so no endpoint is ever served) exactly when DB_PORT is set to a
string that is not a valid integer literal; the other four variables accept
any string, and a numeric DB_PORT parses. -/
theorem db_port_parse_failure_at_startup :
    (∀ env : String → Option String,
      loadConfig env = none ↔
        ∃ s, env "DB_PORT" = some s ∧ pyInt s = none) ∧
    loadConfig
      (fun k => if k = "DB_PORT" then some "localhost:5432" else none) =
      none ∧
    pyInt "5432" = some 5432 := by
  refine ⟨?_, by decide, by decide⟩
  intro env
  cases he : env "DB_PORT" with
  | none => simp [loadConfig, DB_PORT, he]
  | some s => cases hp : pyInt s <;> simp [loadConfig, DB_PORT, he, hp]

/-- C10: the HTTP layer is deterministic given the probe boolean — two root
responses built from probes with equal results have identical bodies and
status, and the health handler's response never varies with the database
state (neither handler consumes request data in the embedding). -/
theorem handlers_deterministic (cfg : Config) :
    (∀ w1 w2 r1 r2 resp1 tr1 resp2 tr2,
      check_db cfg w1 = some r1 → check_db cfg w2 = some r2 →
      r1.result = r2.result →
      index cfg w1 = some (resp1, tr1) → index cfg w2 = some (resp2, tr2) →
      resp1 = resp2) ∧
    (∀ w1 w2 : DbWorld,
      handle cfg w1 Request.healthCheck = handle cfg w2 Request.healthCheck) := by
  constructor
  · intro w1 w2 r1 r2 resp1 tr1 resp2 tr2 h1 h2 hr hi1 hi2
    simp only [index, h1, Option.some.injEq, Prod.mk.injEq] at hi1
    simp only [index, h2, Option.some.injEq, Prod.mk.injEq] at hi2
    obtain ⟨e1, _⟩ := hi1
    obtain ⟨e2, _⟩ := hi2
    subst e1
    subst e2
    rw [hr]
  · intro w1 w2
    rfl

/-- C10 witness: two identical all-success probes give identical bodies. -/
theorem handlers_deterministic_witness :
    check_db cfg0 wAllOk = some rOk ∧ rOk.result = rOk.result ∧
    index cfg0 wAllOk = some (respOk, rOk.trace) ∧ respOk = respOk :=
  ⟨rfl, rfl, rfl,
    (handlers_deterministic cfg0).1 wAllOk wAllOk rOk rOk respOk rOk.trace
      respOk rOk.trace rfl rfl rfl rfl rfl⟩

end DemoApp
